import Mathlib

/-!
# Echommunity — verification of the data-access and workflow layer

A shallow embedding of the student-community application's domain layer:
the entity mapper, the persistence gateway's error handling, the workflow
orchestrator (join workshop, promote/demote roles, award issuance and
revocation, like toggling) and the derived analytics, together with
theorems settling the specified properties.

Conventions of the embedding:
* timestamps (ISO strings in the source) are modelled as `Nat` epoch
  milliseconds; comparisons on them mirror `Date.getTime()` comparisons;
* the hosted backend is opaque: each gateway operation takes the backend
  response's error channel (`Option String`, `none` = success) or the
  fetched rows as an explicit argument;
* JavaScript's stable `Array.prototype.sort` is modelled by
  `List.insertionSort`, which is stable and places earlier elements first
  on ties exactly as a stable comparator sort does;
* `await`ed backend calls may reject; a rejection is an `Except.error`.
-/

/-- Application role, from `types.ts`. -/
inductive Role where
  | MEMBER
  | OFFICER
  | ADMIN
deriving DecidableEq, Repr

/-- Closed organization enumeration, from `types.ts`. -/
inductive Organization where
  | CES
  | TCC
  | ICSO
  | GENERAL
deriving DecidableEq, Repr

/-- Notification type tag, from `types.ts`. -/
inductive NotifType where
  | INFO
  | SUCCESS
  | WARNING
deriving DecidableEq, Repr

/-- Per-user notification entity, from `types.ts`. -/
structure Notif where
  id : String
  title : String
  message : String
  type : NotifType
  read : Bool
  createdAt : Nat
deriving DecidableEq, Repr

/-- Badge entity, from `types.ts`. -/
structure Badge where
  id : String
  title : String
  issuedAt : Nat
  organization : Organization
  workshopTitle : String
  imageUrl : Option String
deriving DecidableEq, Repr

/-- Certificate entity, from `types.ts`. -/
structure Certificate where
  id : String
  title : String
  issuedAt : Nat
  organization : Organization
  workshopTitle : String
  content : String
  fileUrl : Option String
deriving DecidableEq, Repr

/-- Denormalized participant snapshot, from `types.ts`. -/
structure Participant where
  id : String
  name : String
  email : String
  avatarUrl : Option String
deriving DecidableEq, Repr

/-- Workshop comment view-model, from `types.ts`. -/
structure WComment where
  id : String
  userId : String
  userName : String
  userAvatar : Option String
  content : String
  createdAt : Nat
deriving DecidableEq, Repr

/-- Workshop entity, from `types.ts`. -/
structure Workshop where
  id : String
  title : String
  description : String
  date : Nat
  organization : Organization
  bannerUrl : Option String
  badgeUrl : Option String
  certificateUrl : Option String
  limit : Nat
  participants : List Participant
  comments : List WComment
deriving DecidableEq, Repr

/-- Announcement entity, from `types.ts` (comment thread omitted: no
claim concerns announcement comments as data). -/
structure Announcement where
  id : String
  title : String
  content : String
  imageUrl : Option String
  organization : Organization
  authorId : String
  authorName : String
  authorRole : Role
  authorAvatar : Option String
  likes : List String
  createdAt : Nat
deriving DecidableEq, Repr

/-- User entity, from `types.ts`. -/
structure User where
  id : String
  name : String
  email : String
  role : Role
  officerOrg : Option Organization
  avatarUrl : Option String
  createdAt : Nat
  badges : List Badge
  certificates : List Certificate
  notifications : List Notif
deriving DecidableEq, Repr

/-! ## Derived analytics (`analyticsData` in `App.tsx`) -/

/-- One row of the per-organization analytics table built by
`analyticsData`. -/
structure OrgStat where
  name : Organization
  workshops : Nat
  announcements : Nat
  participants : Nat
  score : Nat
deriving DecidableEq, Repr

/-- The fixed organization list iterated by `analyticsData`. -/
def analyticsOrgs : List Organization :=
  [Organization.CES, Organization.TCC, Organization.ICSO, Organization.GENERAL]

/-- The per-organization statistic computed inside `analyticsData`:
filter workshops and announcements by organization, sum participant
counts, and combine them into the engagement score
`workshops*5 + announcements*2 + participants*1`. -/
def orgStatFor (ws : List Workshop) (anns : List Announcement) (org : Organization) :
    OrgStat :=
  let orgW := ws.filter (fun w => w.organization == org)
  let orgA := anns.filter (fun a => a.organization == org)
  let totalParts := orgW.foldl (fun acc w => acc + w.participants.length) 0
  { name := org
    workshops := orgW.length
    announcements := orgA.length
    participants := totalParts
    score := orgW.length * 5 + orgA.length * 2 + totalParts * 1 }

/-- Descending-score comparison used by the analytics ranking
(`(a, b) => b.score - a.score`). -/
def scoreGE (a b : OrgStat) : Prop := b.score ≤ a.score

instance : DecidableRel scoreGE := fun a b => Nat.decLe b.score a.score

instance : IsTotal OrgStat scoreGE := ⟨fun a b => Nat.le_total b.score a.score⟩

instance : IsTrans OrgStat scoreGE := ⟨fun _ _ _ h h2 => Nat.le_trans h2 h⟩

/-- Result record of `analyticsData`. -/
structure Analytics where
  perOrg : List OrgStat
  ranked : List OrgStat
  mostActive : Option OrgStat
  totalAwards : Nat
  newMembers : Nat
deriving Repr

/-- Shallow embedding of the `analyticsData` memo in `App.tsx`: per-org
stats over the fixed organization list, the score-descending ranking
(stable sort, as JavaScript's), its head as the most active organization,
total issued awards, and the trailing-30-day new-member count
(`now` is the render-time wall clock in epoch milliseconds). -/
def analyticsData (ws : List Workshop) (anns : List Announcement)
    (users : List User) (now : Nat) : Analytics :=
  let perOrg := analyticsOrgs.map (orgStatFor ws anns)
  let ranked := List.insertionSort scoreGE perOrg
  let mostActive := ranked.head?
  let totalAwards := users.foldl (fun acc u => acc + u.badges.length + u.certificates.length) 0
  let thirtyDaysAgo := now - 30 * 86400000
  let newMembers := (users.filter (fun u => thirtyDaysAgo < u.createdAt)).length
  { perOrg := perOrg
    ranked := ranked
    mostActive := mostActive
    totalAwards := totalAwards
    newMembers := newMembers }

/-! ## Role promotion and demotion (`handlePromoteUser`, `handleDemoteUser`) -/

/-- Outcome of a role-management click: a profile write, a user-facing
no-op message, or no action (non-admin actor, or a declined confirm
dialog). -/
inductive RoleAction where
  | write (updated : User)
  | noop (message : String)
  | cancelled
deriving DecidableEq, Repr

/-- Shallow embedding of `handlePromoteUser` in `App.tsx`. `actorRole`
is the signed-in user's role (the handler silently returns unless the
actor is an admin); `confirmOk` is the result of the confirm dialog shown
before promoting an officer. -/
def handlePromoteUser (actorRole : Role) (confirmOk : Bool) (targetUser : User) :
    RoleAction :=
  if actorRole ≠ Role.ADMIN then RoleAction.cancelled
  else
    match targetUser.role with
    | Role.MEMBER =>
        RoleAction.write
          { targetUser with role := Role.OFFICER, officerOrg := some Organization.GENERAL }
    | Role.OFFICER =>
        if confirmOk then RoleAction.write { targetUser with role := Role.ADMIN }
        else RoleAction.cancelled
    | Role.ADMIN => RoleAction.noop "User is already an Admin."

/-- Shallow embedding of `handleDemoteUser` in `App.tsx`. Demoting an
admin keeps the existing officer organization and falls back to GENERAL
only when none is set (`if (!nextOrg) nextOrg = GENERAL`). -/
def handleDemoteUser (actorRole : Role) (confirmOk : Bool) (targetUser : User) :
    RoleAction :=
  if actorRole ≠ Role.ADMIN then RoleAction.cancelled
  else
    match targetUser.role with
    | Role.ADMIN =>
        if confirmOk then
          RoleAction.write
            { targetUser with
                role := Role.OFFICER
                officerOrg := some (targetUser.officerOrg.getD Organization.GENERAL) }
        else RoleAction.cancelled
    | Role.OFFICER =>
        if confirmOk then
          RoleAction.write { targetUser with role := Role.MEMBER, officerOrg := none }
        else RoleAction.cancelled
    | Role.MEMBER => RoleAction.noop "User is already at the lowest role."

/-- Shallow embedding of the write performed by `handleUpdateProfile`:
`name: newName || user.name`, and the avatar reference replaced only when
an upload returned a URL (upload returning `null` keeps the previous
asset). Role and officer organization are not touched. -/
def handleUpdateProfile (u : User) (newName : String) (uploadedUrl : Option String) :
    User :=
  { u with
      name := if newName = "" then u.name else newName
      avatarUrl := match uploadedUrl with
        | some url => some url
        | none => u.avatarUrl }

/-- The state a role-management action leaves the target user in: the
written profile if the handler wrote, the unchanged user otherwise. -/
def applyRoleAction (u : User) : RoleAction → User
  | RoleAction.write v => v
  | RoleAction.noop _ => u
  | RoleAction.cancelled => u

/-- The UI operations that can rewrite a user's role or officer
organization fields. -/
inductive AdminOp where
  | promote (confirmOk : Bool)
  | demote (confirmOk : Bool)
  | profileSave (newName : String) (uploadedUrl : Option String)
deriving DecidableEq, Repr

/-- One step of the reachable-state relation: run an admin-actor
promote/demote, or a profile save, on the target user. -/
def stepUser (u : User) : AdminOp → User
  | AdminOp.promote c => applyRoleAction u (handlePromoteUser Role.ADMIN c u)
  | AdminOp.demote c => applyRoleAction u (handleDemoteUser Role.ADMIN c u)
  | AdminOp.profileSave n a => handleUpdateProfile u n a

/-- States reached by a sequence of UI role operations. -/
def runOps (u : User) (ops : List AdminOp) : User := ops.foldl stepUser u

/-- The spec's claimed invariant: officer organization is set if and only
if the role is OFFICER. -/
def officerOrgInvariant (u : User) : Prop :=
  u.officerOrg ≠ none ↔ u.role = Role.OFFICER

instance (u : User) : Decidable (officerOrgInvariant u) := by
  unfold officerOrgInvariant; infer_instance

/-- The invariant the promote/demote/profile-save handlers actually
maintain: an OFFICER always has an officer organization and a MEMBER
never does (an ADMIN may retain the organization held as an officer). -/
def weakOfficerOrgInvariant (u : User) : Prop :=
  (u.role = Role.OFFICER → u.officerOrg ≠ none) ∧
  (u.role = Role.MEMBER → u.officerOrg = none)

instance (u : User) : Decidable (weakOfficerOrgInvariant u) := by
  unfold weakOfficerOrgInvariant; infer_instance

/-! ## Join workshop (`handleJoinWorkshop`, `storageService.joinWorkshop`) -/

/-- Outcome of a join-workshop click. -/
inductive JoinOutcome where
  | notFound
  | expired
  | alreadyJoined
  | joined
deriving DecidableEq, Repr

/-- The participant ids recorded for one workshop in the
`workshop_participants` table (rows are `(workshop_id, user_id)`). -/
def participantIdsOf (rows : List (String × String)) (wId : String) : List String :=
  (rows.filter (fun r => r.1 == wId)).map (fun r => r.2)

/-- Number of participation rows stored for a `(workshop, user)` pair. -/
def countJoinRecords (rows : List (String × String)) (wId uid : String) : Nat :=
  (rows.filter (fun r => r.1 == wId && r.2 == uid)).length

/-- Shallow embedding of `handleJoinWorkshop` in `App.tsx` over the
participation table. `isExpired` is `date.getTime() < now.getTime()`.
The in-memory `w.participants` checked by the handler is modelled as the
stored rows for that workshop, reflecting the reload-after-mutation
policy under sequential calls. A rejected join returns the rows
unchanged; an accepted join appends one `(workshop_id, user_id)` row
(`storageService.joinWorkshop`). -/
def handleJoinWorkshop (now : Nat) (ws : List Workshop)
    (rows : List (String × String)) (userId wId : String) :
    List (String × String) × JoinOutcome :=
  match ws.find? (fun item => item.id == wId) with
  | none => (rows, JoinOutcome.notFound)
  | some w =>
      if w.date < now then (rows, JoinOutcome.expired)
      else if (participantIdsOf rows w.id).contains userId then
        (rows, JoinOutcome.alreadyJoined)
      else (rows ++ [(w.id, userId)], JoinOutcome.joined)

/-! ## Announcement like toggle (`storageService.toggleAnnouncementLike`) -/

/-- Shallow embedding of `toggleAnnouncementLike` over the
`announcement_likes` table (rows are `(announcement_id, user_id)`): when
`isLiked`, delete every row matching the pair; otherwise insert one
row. -/
def toggleAnnouncementLike (rows : List (String × String)) (aid uid : String)
    (isLiked : Bool) : List (String × String) :=
  if isLiked then rows.filter (fun r => !(r.1 == aid && r.2 == uid))
  else rows ++ [(aid, uid)]

/-! ## C1: engagement score and most-active ranking -/

/-- Summing `w.participants.length` with `reduce((acc, w) => acc + ..., 0)`
is the sum of the mapped lengths. -/
lemma foldl_add_map_sum (f : Workshop → Nat) (l : List Workshop) (n : Nat) :
    l.foldl (fun acc w => acc + f w) n = n + (l.map f).sum := by
  induction l generalizing n with
  | nil => simp
  | cons w t ih => simp [ih, Nat.add_assoc]

/-- The head of a list sorted by descending score bounds the score of
every element. -/
lemma sorted_head?_score_ge {l : List OrgStat} {m : OrgStat}
    (hs : List.Sorted scoreGE l) (hm : l.head? = some m) :
    ∀ s ∈ l, s.score ≤ m.score := by
  cases l with
  | nil => cases hm
  | cons a t =>
      cases hm
      intro s hsmem
      rcases List.mem_cons.mp hsmem with h | h
      · exact h ▸ Nat.le_refl _
      · exact List.rel_of_sorted_cons hs s h

/-- C1: for every list of workshops, announcements, and users, the
analytics computation gives each of CES, TCC, ICSO, GENERAL an engagement
score of exactly 5 times its workshop count plus 2 times its announcement
count plus 1 times the total participant count over its workshops, ranks
the organizations by score descending, and flags a highest-scoring
organization as most active. -/
theorem analytics_score_and_ranking (ws : List Workshop) (anns : List Announcement)
    (users : List User) (now : Nat) :
    (∀ s ∈ (analyticsData ws anns users now).perOrg,
        s.workshops = (ws.filter (fun w => w.organization == s.name)).length ∧
        s.announcements = (anns.filter (fun a => a.organization == s.name)).length ∧
        s.participants =
          ((ws.filter (fun w => w.organization == s.name)).map
            (fun w => w.participants.length)).sum ∧
        s.score = 5 * s.workshops + 2 * s.announcements + 1 * s.participants) ∧
    (analyticsData ws anns users now).perOrg.map OrgStat.name = analyticsOrgs ∧
    List.Sorted scoreGE (analyticsData ws anns users now).ranked ∧
    (analyticsData ws anns users now).ranked.Perm (analyticsData ws anns users now).perOrg ∧
    (∃ m, (analyticsData ws anns users now).mostActive = some m ∧
        m ∈ (analyticsData ws anns users now).perOrg ∧
        ∀ s ∈ (analyticsData ws anns users now).perOrg, s.score ≤ m.score) := by
  refine ⟨?_, ?_, ?_, ?_, ?_⟩
  · intro s hs
    simp only [analyticsData, List.mem_map] at hs
    obtain ⟨org, _, rfl⟩ := hs
    refine ⟨rfl, rfl, ?_, ?_⟩
    · simpa [orgStatFor] using foldl_add_map_sum (fun w => w.participants.length)
        (ws.filter (fun w => w.organization == org)) 0
    · simp only [orgStatFor]
      ring
  · simp [analyticsData, List.map_map, orgStatFor, analyticsOrgs, Function.comp]
  · exact List.sorted_insertionSort scoreGE _
  · exact List.perm_insertionSort scoreGE _
  · have hperm := List.perm_insertionSort scoreGE
      ((analyticsData ws anns users now).perOrg)
    have hlen : (analyticsData ws anns users now).perOrg.length = 4 := by
      simp [analyticsData, analyticsOrgs]
    have hne : List.insertionSort scoreGE (analyticsData ws anns users now).perOrg ≠ [] := by
      intro hnil
      have := hperm.length_eq
      rw [hnil, hlen] at this
      cases this
    obtain ⟨m, t, hmt⟩ := List.exists_cons_of_ne_nil hne
    have hhead : (analyticsData ws anns users now).ranked.head? = some m := by
      show (List.insertionSort scoreGE (analyticsData ws anns users now).perOrg).head? = _
      rw [hmt]; rfl
    refine ⟨m, hhead, ?_, ?_⟩
    · have : m ∈ List.insertionSort scoreGE (analyticsData ws anns users now).perOrg := by
        rw [hmt]; exact List.mem_cons_self m t
      exact hperm.subset this
    · intro s hsmem
      have hs' : s ∈ List.insertionSort scoreGE (analyticsData ws anns users now).perOrg :=
        (hperm.mem_iff).mpr hsmem
      exact sorted_head?_score_ge (List.sorted_insertionSort scoreGE _) hhead s hs'

/-- The spec's worked example: an organization with 2 workshops, 3
announcements and 10 total participants. -/
def sampleWorkshopA : Workshop :=
  { id := "w1", title := "Intro to Robotics", description := "d", date := 1000
    organization := Organization.CES, bannerUrl := none, badgeUrl := none
    certificateUrl := none, limit := 0
    participants := List.replicate 4 { id := "p", name := "P", email := "e", avatarUrl := none }
    comments := [] }

/-- Second sample workshop, 6 participants. -/
def sampleWorkshopB : Workshop :=
  { sampleWorkshopA with
      id := "w2",
      title := "Data Basics",
      participants :=
        List.replicate 6 { id := "q", name := "Q", email := "e", avatarUrl := none } }

/-- Sample CES announcement. -/
def sampleAnnouncement (n : String) : Announcement :=
  { id := n, title := "t", content := "c", imageUrl := none
    organization := Organization.CES, authorId := "a", authorName := "A"
    authorRole := Role.ADMIN, authorAvatar := none, likes := [], createdAt := 0 }

/-- The sample workshop list for witnesses. -/
def sampleWorkshops : List Workshop := [sampleWorkshopA, sampleWorkshopB]

/-- The sample announcement list for witnesses. -/
def sampleAnnouncements : List Announcement :=
  [sampleAnnouncement "a1", sampleAnnouncement "a2", sampleAnnouncement "a3"]

/-- Witness for C1: on the spec's example data (2 CES workshops, 3 CES
announcements, 10 participants in total) the CES stat scores 26, the
score satisfies the formula by the main theorem, and CES is flagged most
active. -/
theorem analytics_score_and_ranking_witness :
    (orgStatFor sampleWorkshops sampleAnnouncements Organization.CES).score = 26 ∧
    (orgStatFor sampleWorkshops sampleAnnouncements Organization.CES).score =
      5 * (orgStatFor sampleWorkshops sampleAnnouncements Organization.CES).workshops +
      2 * (orgStatFor sampleWorkshops sampleAnnouncements Organization.CES).announcements +
      1 * (orgStatFor sampleWorkshops sampleAnnouncements Organization.CES).participants ∧
    (analyticsData sampleWorkshops sampleAnnouncements [] 0).mostActive =
      some { name := Organization.CES, workshops := 2, announcements := 3
             participants := 10, score := 26 } := by
  refine ⟨by decide, ?_, by decide⟩
  exact ((analytics_score_and_ranking sampleWorkshops sampleAnnouncements [] 0).1
    (orgStatFor sampleWorkshops sampleAnnouncements Organization.CES)
    (by decide)).2.2.2

/-! ## C2: the promote/demote state machine -/

/-- C2: with an admin actor and a confirmed dialog, Promote maps
MEMBER to OFFICER with organization GENERAL, OFFICER to ADMIN with the
officer organization unchanged, and is a messaged no-op on ADMIN; Demote
maps ADMIN to OFFICER assigning GENERAL only when no organization was
set, OFFICER to MEMBER clearing the organization, and is a messaged
no-op on MEMBER. -/
theorem role_transition_machine (u : User) :
    (u.role = Role.MEMBER →
      handlePromoteUser Role.ADMIN true u =
        RoleAction.write
          { u with role := Role.OFFICER, officerOrg := some Organization.GENERAL }) ∧
    (u.role = Role.OFFICER →
      handlePromoteUser Role.ADMIN true u =
        RoleAction.write { u with role := Role.ADMIN }) ∧
    (u.role = Role.ADMIN →
      handlePromoteUser Role.ADMIN true u = RoleAction.noop "User is already an Admin.") ∧
    (u.role = Role.ADMIN → u.officerOrg = none →
      handleDemoteUser Role.ADMIN true u =
        RoleAction.write
          { u with role := Role.OFFICER, officerOrg := some Organization.GENERAL }) ∧
    (u.role = Role.ADMIN → ∀ o, u.officerOrg = some o →
      handleDemoteUser Role.ADMIN true u =
        RoleAction.write { u with role := Role.OFFICER, officerOrg := some o }) ∧
    (u.role = Role.OFFICER →
      handleDemoteUser Role.ADMIN true u =
        RoleAction.write { u with role := Role.MEMBER, officerOrg := none }) ∧
    (u.role = Role.MEMBER →
      handleDemoteUser Role.ADMIN true u =
        RoleAction.noop "User is already at the lowest role.") := by
  refine ⟨fun h => ?_, fun h => ?_, fun h => ?_, fun h ho => ?_, fun h o ho => ?_,
    fun h => ?_, fun h => ?_⟩
  · simp [handlePromoteUser, h]
  · simp [handlePromoteUser, h]
  · simp [handlePromoteUser, h]
  · simp [handleDemoteUser, h, ho]
  · simp [handleDemoteUser, h, ho]
  · simp [handleDemoteUser, h]
  · simp [handleDemoteUser, h]

/-- Baseline member user for concrete evaluations. -/
def baseUser : User :=
  { id := "u1", name := "Alice", email := "alice@x", role := Role.MEMBER
    officerOrg := none, avatarUrl := none, createdAt := 0
    badges := [], certificates := [], notifications := [] }

/-- An officer of TCC. -/
def sampleOfficer : User :=
  { baseUser with role := Role.OFFICER, officerOrg := some Organization.TCC }

/-- An admin still carrying the TCC officer organization. -/
def sampleAdmin : User :=
  { baseUser with role := Role.ADMIN, officerOrg := some Organization.TCC }

/-- An admin with no officer organization. -/
def sampleAdminNoOrg : User := { baseUser with role := Role.ADMIN }

/-- Witness for C2: all six transitions evaluated on concrete users. -/
theorem role_transition_machine_witness :
    handlePromoteUser Role.ADMIN true baseUser =
      RoleAction.write
        { baseUser with role := Role.OFFICER, officerOrg := some Organization.GENERAL } ∧
    handlePromoteUser Role.ADMIN true sampleOfficer =
      RoleAction.write { sampleOfficer with role := Role.ADMIN } ∧
    handlePromoteUser Role.ADMIN true sampleAdmin =
      RoleAction.noop "User is already an Admin." ∧
    handleDemoteUser Role.ADMIN true sampleAdminNoOrg =
      RoleAction.write
        { sampleAdminNoOrg with role := Role.OFFICER, officerOrg := some Organization.GENERAL } ∧
    handleDemoteUser Role.ADMIN true sampleAdmin =
      RoleAction.write
        { sampleAdmin with role := Role.OFFICER, officerOrg := some Organization.TCC } ∧
    handleDemoteUser Role.ADMIN true sampleOfficer =
      RoleAction.write { sampleOfficer with role := Role.MEMBER, officerOrg := none } ∧
    handleDemoteUser Role.ADMIN true baseUser =
      RoleAction.noop "User is already at the lowest role." :=
  ⟨(role_transition_machine baseUser).1 rfl,
   (role_transition_machine sampleOfficer).2.1 rfl,
   (role_transition_machine sampleAdmin).2.2.1 rfl,
   (role_transition_machine sampleAdminNoOrg).2.2.2.1 rfl rfl,
   (role_transition_machine sampleAdmin).2.2.2.2.1 rfl Organization.TCC rfl,
   (role_transition_machine sampleOfficer).2.2.2.2.2.1 rfl,
   (role_transition_machine baseUser).2.2.2.2.2.2 rfl⟩

/-! ## C4: the officer-organization invariant -/

/-- C4 counterexample: `sampleOfficer` satisfies the claimed iff
invariant, yet one promote step (a sequence of role operations) yields an
ADMIN that still carries `officerOrg = some TCC`, so the claimed
invariant is violated on a reachable state. -/
theorem officerOrg_invariant_counterexample :
    officerOrgInvariant sampleOfficer ∧
    runOps sampleOfficer [AdminOp.promote true] =
      { sampleOfficer with role := Role.ADMIN } ∧
    (runOps sampleOfficer [AdminOp.promote true]).role = Role.ADMIN ∧
    (runOps sampleOfficer [AdminOp.promote true]).officerOrg = some Organization.TCC ∧
    ¬ officerOrgInvariant (runOps sampleOfficer [AdminOp.promote true]) := by
  decide

/-- One promote/demote/profile-save step preserves the weak invariant. -/
lemma weak_invariant_step (u : User) (op : AdminOp)
    (h : weakOfficerOrgInvariant u) : weakOfficerOrgInvariant (stepUser u op) := by
  obtain ⟨h1, h2⟩ := h
  cases op with
  | promote c =>
      cases hr : u.role <;>
        cases c <;>
          simp_all [stepUser, handlePromoteUser, applyRoleAction,
            weakOfficerOrgInvariant, hr]
  | demote c =>
      cases hr : u.role <;>
        cases c <;>
          simp_all [stepUser, handleDemoteUser, applyRoleAction,
            weakOfficerOrgInvariant, hr]
  | profileSave n a =>
      exact ⟨fun hr => h1 hr, fun hr => h2 hr⟩

/-- The claimed iff invariant implies the weak invariant. -/
lemma weak_of_officerOrg_invariant (u : User) (h : officerOrgInvariant u) :
    weakOfficerOrgInvariant u := by
  refine ⟨fun hr => h.mpr hr, fun hr => ?_⟩
  by_contra hne
  have := h.mp hne
  rw [hr] at this
  cases this

/-- C4 amended: from any state satisfying the claimed invariant, every
state reachable through promote/demote/profile-save keeps the weak
invariant — OFFICER states always carry an officer organization and
MEMBER states never do. (The iff form fails: promoting an OFFICER to
ADMIN retains the organization, as the counterexample shows.) -/
theorem weak_invariant_reachable (ops : List AdminOp) (u : User)
    (h : officerOrgInvariant u) : weakOfficerOrgInvariant (runOps u ops) := by
  have hw := weak_of_officerOrg_invariant u h
  clear h
  induction ops generalizing u with
  | nil => exact hw
  | cons op ops ih => exact ih (stepUser u op) (weak_invariant_step u op hw)

/-- Witness for the amended C4: a concrete promote/demote/save sequence
from a concrete invariant-satisfying officer. -/
theorem weak_invariant_reachable_witness :
    officerOrgInvariant sampleOfficer ∧
    weakOfficerOrgInvariant
      (runOps sampleOfficer
        [AdminOp.promote true, AdminOp.demote true, AdminOp.profileSave "Al" none,
         AdminOp.demote true, AdminOp.demote true]) :=
  ⟨by decide,
   weak_invariant_reachable
     [AdminOp.promote true, AdminOp.demote true, AdminOp.profileSave "Al" none,
      AdminOp.demote true, AdminOp.demote true] sampleOfficer (by decide)⟩

/-! ## C5: join-workshop validation -/

/-- Case analysis of a join-workshop call: the three rejections leave the
rows unchanged, and an accepted join appends exactly one row. -/
lemma handleJoinWorkshop_cases (now : Nat) (ws : List Workshop)
    (rows : List (String × String)) (userId wId : String) :
    handleJoinWorkshop now ws rows userId wId = (rows, JoinOutcome.notFound) ∨
    handleJoinWorkshop now ws rows userId wId = (rows, JoinOutcome.expired) ∨
    handleJoinWorkshop now ws rows userId wId = (rows, JoinOutcome.alreadyJoined) ∨
    (∃ w, ws.find? (fun item => item.id == wId) = some w ∧ w.id = wId ∧
      ¬ w.date < now ∧ ¬ userId ∈ participantIdsOf rows w.id ∧
      handleJoinWorkshop now ws rows userId wId =
        (rows ++ [(w.id, userId)], JoinOutcome.joined)) := by
  unfold handleJoinWorkshop
  cases hfind : ws.find? (fun item => item.id == wId) with
  | none => exact Or.inl rfl
  | some w =>
      have hw : w.id = wId := by
        have hbeq := List.find?_some hfind
        simpa using hbeq
      by_cases hd : w.date < now
      · exact Or.inr (Or.inl (by simp [hd]))
      · by_cases hc : userId ∈ participantIdsOf rows w.id
        · have hcb : (participantIdsOf rows w.id).contains userId = true :=
            List.elem_iff.mpr hc
          exact Or.inr (Or.inr (Or.inl (by simp [hd, hcb, hc])))
        · have hcb : (participantIdsOf rows w.id).contains userId = false := by
            simp [List.elem_iff, hc]
          exact Or.inr (Or.inr (Or.inr ⟨w, rfl, hw, hd, hc, by simp [hd, hcb, hc]⟩))

/-- Appending the joined row adds exactly one record for that pair. -/
lemma countJoinRecords_append_self (rows : List (String × String)) (wId uid : String) :
    countJoinRecords (rows ++ [(wId, uid)]) wId uid = countJoinRecords rows wId uid + 1 := by
  simp [countJoinRecords, List.filter_append]

/-- Membership in the participant ids after the joined row is appended. -/
lemma mem_participantIdsOf_append_self (rows : List (String × String)) (wId uid : String) :
    uid ∈ participantIdsOf (rows ++ [(wId, uid)]) wId := by
  simp [participantIdsOf, List.filter_append]

/-- C5: a join of an expired workshop, or by a user already among the
workshop's participants, is rejected with the stored participation rows
unchanged (no write happens); every non-joined outcome leaves the rows
unchanged; and two sequential joins by the same user create at most one
participation record when none existed before. -/
theorem join_workshop_validation (now : Nat) (ws : List Workshop)
    (rows : List (String × String)) (userId wId : String) :
    (∀ w, ws.find? (fun item => item.id == wId) = some w → w.date < now →
      handleJoinWorkshop now ws rows userId wId = (rows, JoinOutcome.expired)) ∧
    (∀ w, ws.find? (fun item => item.id == wId) = some w → ¬ w.date < now →
      userId ∈ participantIdsOf rows w.id →
      handleJoinWorkshop now ws rows userId wId = (rows, JoinOutcome.alreadyJoined)) ∧
    ((handleJoinWorkshop now ws rows userId wId).2 ≠ JoinOutcome.joined →
      (handleJoinWorkshop now ws rows userId wId).1 = rows) ∧
    (countJoinRecords rows wId userId = 0 →
      countJoinRecords
        (handleJoinWorkshop now ws
          (handleJoinWorkshop now ws rows userId wId).1 userId wId).1 wId userId ≤ 1) := by
  refine ⟨?_, ?_, ?_, ?_⟩
  · intro w hfind hd
    unfold handleJoinWorkshop
    rw [hfind]
    simp [hd]
  · intro w hfind hd hmem
    have hcb : (participantIdsOf rows w.id).contains userId = true :=
      List.elem_iff.mpr hmem
    unfold handleJoinWorkshop
    rw [hfind]
    simp [hd, hcb, hmem]
  · intro hne
    rcases handleJoinWorkshop_cases now ws rows userId wId with h | h | h | ⟨w, _, _, _, _, h⟩
    · rw [h]
    · rw [h]
    · rw [h]
    · rw [h] at hne
      cases hne rfl
  · intro hzero
    rcases handleJoinWorkshop_cases now ws rows userId wId
      with h | h | h | ⟨w, hfind, hw, hd, _, h⟩
    · rw [h]
      show countJoinRecords (handleJoinWorkshop now ws rows userId wId).1 wId userId ≤ 1
      rw [h]
      show countJoinRecords rows wId userId ≤ 1
      simp [hzero]
    · rw [h]
      show countJoinRecords (handleJoinWorkshop now ws rows userId wId).1 wId userId ≤ 1
      rw [h]
      show countJoinRecords rows wId userId ≤ 1
      simp [hzero]
    · rw [h]
      show countJoinRecords (handleJoinWorkshop now ws rows userId wId).1 wId userId ≤ 1
      rw [h]
      show countJoinRecords rows wId userId ≤ 1
      simp [hzero]
    · rw [h]
      show countJoinRecords
        (handleJoinWorkshop now ws (rows ++ [(w.id, userId)]) userId wId).1 wId userId ≤ 1
      have hc2 : (participantIdsOf (rows ++ [(w.id, userId)]) w.id).contains userId = true :=
        List.elem_iff.mpr (mem_participantIdsOf_append_self rows w.id userId)
      unfold handleJoinWorkshop
      rw [hfind]
      simp only [hd, if_false, hc2, if_true]
      rw [hw, countJoinRecords_append_self, hzero]

/-- Witness for C5: on a concrete store, joining the expired workshop is
rejected with rows unchanged, and joining the open workshop twice stores
a single participation record. -/
theorem join_workshop_validation_witness :
    handleJoinWorkshop 2000 sampleWorkshops [] "u9" "w1" = ([], JoinOutcome.expired) ∧
    countJoinRecords
      (handleJoinWorkshop 500 sampleWorkshops
        (handleJoinWorkshop 500 sampleWorkshops [] "u9" "w1").1 "u9" "w1").1 "w1" "u9" ≤ 1 :=
  ⟨(join_workshop_validation 2000 sampleWorkshops [] "u9" "w1").1
      sampleWorkshopA (by decide) (by decide),
   (join_workshop_validation 500 sampleWorkshops [] "u9" "w1").2.2.2 (by decide)⟩

/-! ## C6: like-toggle round trip -/

/-- A row other than the toggled `(announcement, user)` pair survives the
delete filter. -/
lemma mem_filter_not_key {rows : List (String × String)} {aid uid : String}
    {p : String × String} (hpk : p ≠ (aid, uid)) (hp : p ∈ rows) :
    p ∈ rows.filter (fun r => !(r.1 == aid && r.2 == uid)) := by
  refine List.mem_filter.mpr ⟨hp, ?_⟩
  have hne : ¬(p.1 = aid ∧ p.2 = uid) := fun hcon => hpk (Prod.ext hcon.1 hcon.2)
  simpa using not_and_or.mp hne

/-- C6: toggling a like twice sequentially, with `isLiked` reflecting the
actual presence of the `(announcement, user)` row at each call, returns
the like table to exactly its original membership: delete-then-insert and
insert-then-delete are the identity on the like set. -/
theorem like_toggle_roundtrip (rows : List (String × String)) (aid uid : String)
    (p : String × String) :
    p ∈ toggleAnnouncementLike
          (toggleAnnouncementLike rows aid uid (rows.contains (aid, uid)))
          aid uid
          ((toggleAnnouncementLike rows aid uid (rows.contains (aid, uid))).contains (aid, uid))
      ↔ p ∈ rows := by
  by_cases h : (aid, uid) ∈ rows
  · have hc : rows.contains (aid, uid) = true := List.elem_iff.mpr h
    rw [hc]
    have hc2 : (toggleAnnouncementLike rows aid uid true).contains (aid, uid) = false := by
      show (rows.filter (fun r => !(r.1 == aid && r.2 == uid))).contains (aid, uid) = false
      simp [List.elem_iff, List.mem_filter]
    rw [hc2]
    show p ∈ rows.filter (fun r => !(r.1 == aid && r.2 == uid)) ++ [(aid, uid)] ↔ p ∈ rows
    rw [List.mem_append, List.mem_filter, List.mem_singleton]
    constructor
    · rintro (⟨hp, _⟩ | rfl)
      · exact hp
      · exact h
    · intro hp
      by_cases hpk : p = (aid, uid)
      · exact Or.inr hpk
      · exact Or.inl (List.mem_filter.mp (mem_filter_not_key hpk hp))
  · have hc : rows.contains (aid, uid) = false := by simp [List.elem_iff, h]
    rw [hc]
    have hc2 : (toggleAnnouncementLike rows aid uid false).contains (aid, uid) = true := by
      show ((rows ++ [(aid, uid)]).contains (aid, uid)) = true
      simp [List.elem_iff]
    rw [hc2]
    show p ∈ (rows ++ [(aid, uid)]).filter (fun r => !(r.1 == aid && r.2 == uid)) ↔ p ∈ rows
    have hsingle : List.filter (fun r => !(r.1 == aid && r.2 == uid)) [(aid, uid)] = [] := by
      simp
    rw [List.filter_append, hsingle, List.append_nil]
    constructor
    · intro hp
      exact (List.mem_filter.mp hp).1
    · intro hp
      have hpk : p ≠ (aid, uid) := fun he => h (he ▸ hp)
      exact mem_filter_not_key hpk hp

/-- Witness for C6: a concrete two-row table toggled twice for a present
pair keeps exactly its rows. -/
theorem like_toggle_roundtrip_witness :
    (("a1", "u1") ∈ toggleAnnouncementLike
        (toggleAnnouncementLike [("a1", "u1"), ("a1", "u2")] "a1" "u1"
          (List.contains [("a1", "u1"), ("a1", "u2")] ("a1", "u1")))
        "a1" "u1"
        ((toggleAnnouncementLike [("a1", "u1"), ("a1", "u2")] "a1" "u1"
          (List.contains [("a1", "u1"), ("a1", "u2")] ("a1", "u1"))).contains ("a1", "u1"))
      ↔ ("a1", "u1") ∈ [("a1", "u1"), ("a1", "u2")]) :=
  like_toggle_roundtrip [("a1", "u1"), ("a1", "u2")] "a1" "u1" ("a1", "u1")

/-! ## Persistence gateway rows and error policy (`storageService`) -/

/-- Raw `profiles` table row. -/
structure ProfileRow where
  id : String
  name : String
  email : String
  role : Role
  officer_org : Option Organization
  avatar_url : Option String
  created_at : Nat
deriving DecidableEq, Repr

/-- Raw `badges` table row. -/
structure BadgeRow where
  id : String
  title : String
  organization : Organization
  workshop_title : String
  issued_at : Nat
  image_url : Option String
deriving DecidableEq, Repr

/-- Raw `certificates` table row. -/
structure CertRow where
  id : String
  title : String
  organization : Organization
  workshop_title : String
  content : String
  issued_at : Nat
  file_url : Option String
deriving DecidableEq, Repr

/-- Raw `notifications` table row. -/
structure NotifRow where
  id : String
  title : String
  message : String
  type : NotifType
  is_read : Bool
  created_at : Nat
deriving DecidableEq, Repr

/-- The three `Promise.all` sub-fetches of `mapProfileToUser`; a resolved
response carries `data` (which the backend may return as null, hence the
inner `Option`), a rejected one is an `Except.error`. -/
structure SubFetches where
  badgesRes : Except String (Option (List BadgeRow))
  certsRes : Except String (Option (List CertRow))
  notifsRes : Except String (Option (List NotifRow))
deriving Repr

/-- Field translation for one badge row. -/
def mapBadgeRow (b : BadgeRow) : Badge :=
  { id := b.id, title := b.title, organization := b.organization
    workshopTitle := b.workshop_title, issuedAt := b.issued_at, imageUrl := b.image_url }

/-- Field translation for one certificate row. -/
def mapCertRow (c : CertRow) : Certificate :=
  { id := c.id, title := c.title, organization := c.organization
    workshopTitle := c.workshop_title, content := c.content
    issuedAt := c.issued_at, fileUrl := c.file_url }

/-- Field translation for one notification row. -/
def mapNotifRow (n : NotifRow) : Notif :=
  { id := n.id, title := n.title, message := n.message, type := n.type
    read := n.is_read, createdAt := n.created_at }

/-- Shallow embedding of `mapProfileToUser`: when all three sub-fetches
resolve, map their rows (`.data || []` is `getD []`); if any rejects, the
catch branch returns the user with three empty collections. Scalars are
copied from the profile in both branches; the mapper is total — it never
raises. -/
def mapProfileToUser (profile : ProfileRow) (subs : SubFetches) : User :=
  match subs.badgesRes, subs.certsRes, subs.notifsRes with
  | Except.ok bs, Except.ok cs, Except.ok ns =>
      { id := profile.id, name := profile.name, email := profile.email
        role := profile.role, officerOrg := profile.officer_org
        avatarUrl := profile.avatar_url, createdAt := profile.created_at
        badges := (bs.getD []).map mapBadgeRow
        certificates := (cs.getD []).map mapCertRow
        notifications := (ns.getD []).map mapNotifRow }
  | _, _, _ =>
      { id := profile.id, name := profile.name, email := profile.email
        role := profile.role, officerOrg := profile.officer_org
        avatarUrl := profile.avatar_url, createdAt := profile.created_at
        badges := [], certificates := [], notifications := [] }

/-- Joined participant profile selected inside `getWorkshops`. -/
structure ParticipantProfileRow where
  id : String
  name : String
  email : String
  avatar_url : Option String
deriving DecidableEq, Repr

/-- One `workshop_participants` join row: its joined profile may be null. -/
structure WpRow where
  profiles : Option ParticipantProfileRow
deriving DecidableEq, Repr

/-- Joined comment-author profile (`profiles(name, avatar_url)`). -/
structure CommentProfileRow where
  name : String
  avatar_url : Option String
deriving DecidableEq, Repr

/-- One joined `comments` row. -/
structure CommentRow where
  id : String
  user_id : String
  content : String
  created_at : Nat
  profiles : Option CommentProfileRow
deriving DecidableEq, Repr

/-- Raw `workshops` row with its two nested joins. -/
structure WorkshopRow where
  id : String
  title : String
  description : String
  date : Nat
  organization : Organization
  banner_url : Option String
  badge_url : Option String
  certificate_url : Option String
  participant_limit : Option Nat
  workshop_participants : List WpRow
  comments : List CommentRow
deriving DecidableEq, Repr

/-- Row-to-entity mapping used by `getWorkshops`: null participant
profiles are filtered out, `participant_limit || 0` defaults the limit,
and a missing comment author becomes the literal "Unknown". -/
def mapWorkshopRow (w : WorkshopRow) : Workshop :=
  { id := w.id, title := w.title, description := w.description, date := w.date
    organization := w.organization, bannerUrl := w.banner_url
    badgeUrl := w.badge_url, certificateUrl := w.certificate_url
    limit := w.participant_limit.getD 0
    participants :=
      ((w.workshop_participants.map (fun wp => wp.profiles)).filterMap id).map
        (fun p => { id := p.id, name := p.name, email := p.email
                    avatarUrl := p.avatar_url })
    comments := w.comments.map (fun c =>
      { id := c.id, userId := c.user_id, content := c.content
        createdAt := c.created_at
        userName := (c.profiles.map (fun p => p.name)).getD "Unknown"
        userAvatar := c.profiles.bind (fun p => p.avatar_url) }) }

/-- Joined announcement-author profile (`profiles:author_id`). -/
structure AnnAuthorRow where
  name : String
  avatar_url : Option String
  role : Role
deriving DecidableEq, Repr

/-- One `announcement_likes` join row. -/
structure LikeRow where
  user_id : String
deriving DecidableEq, Repr

/-- Raw `announcements` row with its joins. -/
structure AnnouncementRow where
  id : String
  title : String
  content : String
  image_url : Option String
  organization : Organization
  author_id : String
  created_at : Nat
  profiles : Option AnnAuthorRow
  announcement_likes : List LikeRow
deriving DecidableEq, Repr

/-- Row-to-entity mapping used by `getAnnouncements`: a missing joined
author defaults to name "Unknown" and role MEMBER; likes flatten to the
liking user ids. (The comment thread is presentation data not modelled
here.) -/
def mapAnnouncementRow (a : AnnouncementRow) : Announcement :=
  { id := a.id, title := a.title, content := a.content, imageUrl := a.image_url
    organization := a.organization, authorId := a.author_id
    authorName := (a.profiles.map (fun p => p.name)).getD "Unknown"
    authorRole := (a.profiles.map (fun p => p.role)).getD Role.MEMBER
    authorAvatar := a.profiles.bind (fun p => p.avatar_url)
    likes := a.announcement_likes.map (fun l => l.user_id)
    createdAt := a.created_at }

namespace storageService

/-- `getWorkshops`: on any error (thrown or caught) returns `[]`. -/
def getWorkshops (resp : Except String (List WorkshopRow)) : List Workshop :=
  match resp with
  | Except.ok rows => rows.map mapWorkshopRow
  | Except.error _ => []

/-- `getUsers`: maps each profile through `mapProfileToUser`
(with that profile's sub-fetches); returns `[]` on error. -/
def getUsers (resp : Except String (List ProfileRow))
    (subs : ProfileRow → SubFetches) : List User :=
  match resp with
  | Except.ok profiles => profiles.map (fun p => mapProfileToUser p (subs p))
  | Except.error _ => []

/-- `getAnnouncements`: returns `[]` on error. -/
def getAnnouncements (resp : Except String (List AnnouncementRow)) :
    List Announcement :=
  match resp with
  | Except.ok rows => rows.map mapAnnouncementRow
  | Except.error _ => []

/-- `getCurrentUser`: `none` without a session, `none` on a failed or
empty profile fetch, otherwise the mapped profile. -/
def getCurrentUser (session : Option String)
    (resp : Except String (Option ProfileRow)) (subs : SubFetches) : Option User :=
  match session with
  | none => none
  | some _ =>
      match resp with
      | Except.error _ => none
      | Except.ok none => none
      | Except.ok (some profile) => some (mapProfileToUser profile subs)

/-- `saveUser`: `if (error) throw error`. -/
def saveUser (respError : Option String) : Except String Unit :=
  match respError with
  | some e => Except.error e
  | none => Except.ok ()

/-- `createWorkshop`: `if (error) throw error`. -/
def createWorkshop (respError : Option String) : Except String Unit :=
  match respError with
  | some e => Except.error e
  | none => Except.ok ()

/-- `updateWorkshop`: `if (error) throw error`. -/
def updateWorkshop (respError : Option String) : Except String Unit :=
  match respError with
  | some e => Except.error e
  | none => Except.ok ()

/-- `deleteWorkshop`: `if (error) throw error`. -/
def deleteWorkshop (respError : Option String) : Except String Unit :=
  match respError with
  | some e => Except.error e
  | none => Except.ok ()

/-- `joinWorkshop`: `if (error) throw error`. -/
def joinWorkshop (respError : Option String) : Except String Unit :=
  match respError with
  | some e => Except.error e
  | none => Except.ok ()

/-- `removeParticipant`: `if (error) throw error`. -/
def removeParticipant (respError : Option String) : Except String Unit :=
  match respError with
  | some e => Except.error e
  | none => Except.ok ()

/-- `createAnnouncement`: `if (error) throw error`. -/
def createAnnouncement (respError : Option String) : Except String Unit :=
  match respError with
  | some e => Except.error e
  | none => Except.ok ()

/-- `updateAnnouncement`: `if (error) throw error`. -/
def updateAnnouncement (respError : Option String) : Except String Unit :=
  match respError with
  | some e => Except.error e
  | none => Except.ok ()

/-- `deleteAnnouncement`: `if (error) throw error`. -/
def deleteAnnouncement (respError : Option String) : Except String Unit :=
  match respError with
  | some e => Except.error e
  | none => Except.ok ()

/-- `toggleAnnouncementLike` awaits the delete or the insert without
reading the response's error field: it resolves regardless. -/
def toggleAnnouncementLike (isLiked : Bool) (_respError : Option String) :
    Except String Unit :=
  match isLiked with
  | true => Except.ok ()
  | false => Except.ok ()

/-- `addAnnouncementComment` awaits the insert, error field unread. -/
def addAnnouncementComment (_respError : Option String) : Except String Unit :=
  Except.ok ()

/-- `addComment` awaits the insert, error field unread. -/
def addComment (_respError : Option String) : Except String Unit :=
  Except.ok ()

/-- `sendNotification` awaits the insert, error field unread. -/
def sendNotification (_respError : Option String) : Except String Unit :=
  Except.ok ()

/-- `markNotificationRead` awaits the update, error field unread. -/
def markNotificationRead (_respError : Option String) : Except String Unit :=
  Except.ok ()

/-- `markAllNotificationsRead` awaits the update, error field unread. -/
def markAllNotificationsRead (_respError : Option String) : Except String Unit :=
  Except.ok ()

/-- `issueBadge` awaits the insert, error field unread. -/
def issueBadge (_respError : Option String) : Except String Unit :=
  Except.ok ()

/-- `issueCertificate` awaits the insert, error field unread. -/
def issueCertificate (_respError : Option String) : Except String Unit :=
  Except.ok ()

/-- `revokeAwards` awaits both deletes, error fields unread. -/
def revokeAwards (_badgeRespError _certRespError : Option String) :
    Except String Unit :=
  Except.ok ()

end storageService

/-- C3 counterexample: the claim says the badge-issuance write (and the
like toggle, notification insert, and award revocation) raises on a
backend error, but these operations never read the response's error
field: each resolves successfully on a failing backend response. -/
theorem write_error_policy_counterexample :
    storageService.issueBadge (some "badge insert failed") = Except.ok () ∧
    storageService.issueCertificate (some "certificate insert failed") = Except.ok () ∧
    storageService.toggleAnnouncementLike true (some "like delete failed") = Except.ok () ∧
    storageService.sendNotification (some "notification insert failed") = Except.ok () ∧
    storageService.addAnnouncementComment (some "comment insert failed") = Except.ok () ∧
    storageService.markNotificationRead (some "update failed") = Except.ok () ∧
    storageService.revokeAwards (some "badge delete failed") (some "certificate delete failed") =
      Except.ok () :=
  ⟨rfl, rfl, rfl, rfl, rfl, rfl, rfl⟩

/-- C3 amended: every read operation swallows backend errors into an
empty result; the user/workshop/announcement create-update-delete writes,
participation add/remove, and profile save raise on backend error; but
the like toggle, comment appends, notification insert/update, badge and
certificate issuance, and award revocation never inspect the error and
resolve successfully even on a failing backend response. -/
theorem gateway_error_policy (e : String) (subs : ProfileRow → SubFetches)
    (s : SubFetches) (session : Option String) (isLiked : Bool) :
    storageService.getWorkshops (Except.error e) = [] ∧
    storageService.getUsers (Except.error e) subs = [] ∧
    storageService.getAnnouncements (Except.error e) = [] ∧
    storageService.getCurrentUser session (Except.error e) s = none ∧
    storageService.saveUser (some e) = Except.error e ∧
    storageService.createWorkshop (some e) = Except.error e ∧
    storageService.updateWorkshop (some e) = Except.error e ∧
    storageService.deleteWorkshop (some e) = Except.error e ∧
    storageService.joinWorkshop (some e) = Except.error e ∧
    storageService.removeParticipant (some e) = Except.error e ∧
    storageService.createAnnouncement (some e) = Except.error e ∧
    storageService.updateAnnouncement (some e) = Except.error e ∧
    storageService.deleteAnnouncement (some e) = Except.error e ∧
    storageService.toggleAnnouncementLike isLiked (some e) = Except.ok () ∧
    storageService.addAnnouncementComment (some e) = Except.ok () ∧
    storageService.addComment (some e) = Except.ok () ∧
    storageService.sendNotification (some e) = Except.ok () ∧
    storageService.markNotificationRead (some e) = Except.ok () ∧
    storageService.markAllNotificationsRead (some e) = Except.ok () ∧
    storageService.issueBadge (some e) = Except.ok () ∧
    storageService.issueCertificate (some e) = Except.ok () ∧
    storageService.revokeAwards (some e) (some e) = Except.ok () := by
  refine ⟨rfl, rfl, rfl, ?_, rfl, rfl, rfl, rfl, rfl, rfl, rfl, rfl, rfl, ?_,
    rfl, rfl, rfl, rfl, rfl, rfl, rfl, rfl⟩
  · cases session <;> rfl
  · cases isLiked <;> rfl

/-! ## C8: the profile mapper is total and defaults to empty collections -/

/-- C8: the profile mapper always produces a `User` (it is a total
function); when the three sub-fetches resolve with no rows (null data or
an empty row list) the user carries three empty collections, when any
sub-fetch rejects the catch branch likewise yields three empty
collections, and in every case all scalar fields are copied from the
profile row. -/
theorem mapProfileToUser_empty_collections (profile : ProfileRow) (subs : SubFetches) :
    ((subs.badgesRes = Except.ok none ∨ subs.badgesRes = Except.ok (some [])) →
      (subs.certsRes = Except.ok none ∨ subs.certsRes = Except.ok (some [])) →
      (subs.notifsRes = Except.ok none ∨ subs.notifsRes = Except.ok (some [])) →
      (mapProfileToUser profile subs).badges = [] ∧
      (mapProfileToUser profile subs).certificates = [] ∧
      (mapProfileToUser profile subs).notifications = []) ∧
    (((∃ e, subs.badgesRes = Except.error e) ∨ (∃ e, subs.certsRes = Except.error e) ∨
      (∃ e, subs.notifsRes = Except.error e)) →
      (mapProfileToUser profile subs).badges = [] ∧
      (mapProfileToUser profile subs).certificates = [] ∧
      (mapProfileToUser profile subs).notifications = []) ∧
    ((mapProfileToUser profile subs).id = profile.id ∧
      (mapProfileToUser profile subs).name = profile.name ∧
      (mapProfileToUser profile subs).email = profile.email ∧
      (mapProfileToUser profile subs).role = profile.role ∧
      (mapProfileToUser profile subs).officerOrg = profile.officer_org ∧
      (mapProfileToUser profile subs).avatarUrl = profile.avatar_url ∧
      (mapProfileToUser profile subs).createdAt = profile.created_at) := by
  refine ⟨?_, ?_, ?_⟩
  · rintro (hb | hb) (hc | hc) (hn | hn) <;> simp [mapProfileToUser, hb, hc, hn]
  · intro h
    cases hbr : subs.badgesRes <;> cases hcr : subs.certsRes <;>
      cases hnr : subs.notifsRes <;> simp [mapProfileToUser, hbr, hcr, hnr]
    rcases h with ⟨e, he⟩ | ⟨e, he⟩ | ⟨e, he⟩ <;> simp_all
  · cases hbr : subs.badgesRes <;> cases hcr : subs.certsRes <;>
      cases hnr : subs.notifsRes <;> simp [mapProfileToUser, hbr, hcr, hnr]

/-- Sample raw profile row. -/
def sampleProfile : ProfileRow :=
  { id := "u1", name := "Alice", email := "alice@x", role := Role.MEMBER
    officer_org := none, avatar_url := none, created_at := 5 }

/-- Sub-fetches resolving with no rows. -/
def emptySubFetches : SubFetches :=
  { badgesRes := Except.ok (some []), certsRes := Except.ok none
    notifsRes := Except.ok (some []) }

/-- Sub-fetches where the badge fetch rejected. -/
def failedSubFetches : SubFetches :=
  { badgesRes := Except.error "network down"
    certsRes := Except.ok (some [{ id := "c1", title := "t", organization := Organization.CES
                                   workshop_title := "w", content := "x", issued_at := 1
                                   file_url := none }])
    notifsRes := Except.ok none }

/-- Witness for C8: the mapper on a concrete profile with empty and with
failed sub-fetches yields empty collections and mapped scalars. -/
theorem mapProfileToUser_empty_collections_witness :
    (mapProfileToUser sampleProfile emptySubFetches).badges = [] ∧
    (mapProfileToUser sampleProfile emptySubFetches).notifications = [] ∧
    (mapProfileToUser sampleProfile failedSubFetches).certificates = [] ∧
    (mapProfileToUser sampleProfile failedSubFetches).name = "Alice" :=
  ⟨((mapProfileToUser_empty_collections sampleProfile emptySubFetches).1
      (Or.inr rfl) (Or.inl rfl) (Or.inr rfl)).1,
   ((mapProfileToUser_empty_collections sampleProfile emptySubFetches).1
      (Or.inr rfl) (Or.inl rfl) (Or.inr rfl)).2.2,
   ((mapProfileToUser_empty_collections sampleProfile failedSubFetches).2.1
      (Or.inl ⟨"network down", rfl⟩)).2.1,
   (mapProfileToUser_empty_collections sampleProfile failedSubFetches).2.2.2.1⟩

/-! ## C7: bulk award issuance fans out independent sequences -/

/-- The three awaited writes of one participant's issue sequence. -/
inductive AwardStep where
  | badgeInsert
  | certInsert
  | notifySend
deriving DecidableEq, Repr

/-- One participant's issue sequence under that participant's own
per-step rejection oracle: the steps attempted in order (stopping after
the first rejecting await) and whether the async sequence rejected. -/
def issueSequenceSteps (fails : AwardStep → Bool) : List AwardStep × Bool :=
  if fails AwardStep.badgeInsert then ([AwardStep.badgeInsert], true)
  else if fails AwardStep.certInsert then
    ([AwardStep.badgeInsert, AwardStep.certInsert], true)
  else if fails AwardStep.notifySend then
    ([AwardStep.badgeInsert, AwardStep.certInsert, AwardStep.notifySend], true)
  else ([AwardStep.badgeInsert, AwardStep.certInsert, AwardStep.notifySend], false)

/-- Shallow embedding of `handleBulkIssueAwards`: `Promise.all` fires one
async sequence per selected id (an id missing from the workshop's
participants returns early having attempted nothing); each sequence runs
against its own oracle only, and the aggregate rejects — producing the
single "some failed" alert — exactly when some sequence rejected.
JavaScript does not cancel the still-running sequences on an early
rejection, so every per-participant run is recorded in full. -/
def handleBulkIssueAwards (w : Workshop) (selected : List String)
    (stepFails : String → AwardStep → Bool) :
    List (String × List AwardStep × Bool) × Bool :=
  let runs := selected.map (fun pId =>
    match w.participants.find? (fun p => p.id == pId) with
    | none => (pId, ([], false))
    | some _ => (pId, issueSequenceSteps (stepFails pId)))
  (runs, runs.any (fun r => r.2.2))

/-- C7: for a selection of ids that are all participants, the bulk
workflow attempts exactly one independent sequence per selected
participant; each participant's attempted steps depend only on that
participant's own oracle, so a participant whose own steps do not fail
completes all three steps no matter how the others fail; and failures
surface only as the single aggregate flag, true exactly when some
participant's sequence rejected. -/
theorem bulk_issue_independence (w : Workshop) (selected : List String)
    (stepFails : String → AwardStep → Bool)
    (hsel : ∀ pid ∈ selected, (w.participants.find? (fun p => p.id == pid)).isSome) :
    (handleBulkIssueAwards w selected stepFails).1.length = selected.length ∧
    (∀ pid ∈ selected,
      (pid, issueSequenceSteps (stepFails pid)) ∈
        (handleBulkIssueAwards w selected stepFails).1) ∧
    (∀ pid ∈ selected, (∀ s, stepFails pid s = false) →
      (pid, ([AwardStep.badgeInsert, AwardStep.certInsert, AwardStep.notifySend], false)) ∈
        (handleBulkIssueAwards w selected stepFails).1) ∧
    ((handleBulkIssueAwards w selected stepFails).2 = true ↔
      ∃ pid ∈ selected, (issueSequenceSteps (stepFails pid)).2 = true) := by
  have hentry : ∀ pid ∈ selected,
      (pid, issueSequenceSteps (stepFails pid)) ∈
        (handleBulkIssueAwards w selected stepFails).1 := by
    intro pid hmem
    have hsome := hsel pid hmem
    simp only [handleBulkIssueAwards, List.mem_map]
    refine ⟨pid, hmem, ?_⟩
    cases hf : w.participants.find? (fun p => p.id == pid) with
    | none => rw [hf] at hsome; cases hsome
    | some p => rfl
  refine ⟨by simp [handleBulkIssueAwards], hentry, ?_, ?_⟩
  · intro pid hmem hok
    have hseq : issueSequenceSteps (stepFails pid) =
        ([AwardStep.badgeInsert, AwardStep.certInsert, AwardStep.notifySend], false) := by
      simp [issueSequenceSteps, hok]
    have := hentry pid hmem
    rw [hseq] at this
    exact this
  · constructor
    · intro h
      simp only [handleBulkIssueAwards, List.any_eq_true, List.mem_map] at h
      obtain ⟨r, ⟨pid, hpid, hr⟩, hfail⟩ := h
      refine ⟨pid, hpid, ?_⟩
      cases hf : w.participants.find? (fun p => p.id == pid) with
      | none =>
          rw [hf] at hr
          rw [← hr] at hfail
          cases hfail
      | some p =>
          rw [hf] at hr
          rw [← hr] at hfail
          exact hfail
    · rintro ⟨pid, hpid, hfail⟩
      simp only [handleBulkIssueAwards, List.any_eq_true]
      refine ⟨(pid, issueSequenceSteps (stepFails pid)), ?_, hfail⟩
      have := hentry pid hpid
      simpa [handleBulkIssueAwards] using this

/-- A workshop with two distinct participants for award evaluations. -/
def awardWorkshop : Workshop :=
  { id := "w9", title := "Soldering", description := "d", date := 10
    organization := Organization.ICSO, bannerUrl := none
    badgeUrl := some "b.png", certificateUrl := some "c.png", limit := 0
    participants :=
      [{ id := "p1", name := "Pia", email := "p1@x", avatarUrl := none },
       { id := "p2", name := "Quinn", email := "p2@x", avatarUrl := none }]
    comments := [] }

/-- Oracle failing every step of participant p1 only. -/
def failP1 : String → AwardStep → Bool := fun pid _ => pid == "p1"

/-- Witness for C7: with p1's sequence failing, p2's still completes all
three steps and the aggregate failure flag is raised once. -/
theorem bulk_issue_independence_witness :
    (handleBulkIssueAwards awardWorkshop ["p1", "p2"] failP1).1.length = 2 ∧
    ("p2", ([AwardStep.badgeInsert, AwardStep.certInsert, AwardStep.notifySend], false)) ∈
      (handleBulkIssueAwards awardWorkshop ["p1", "p2"] failP1).1 ∧
    (handleBulkIssueAwards awardWorkshop ["p1", "p2"] failP1).2 = true :=
  ⟨(bulk_issue_independence awardWorkshop ["p1", "p2"] failP1 (by decide)).1,
   (bulk_issue_independence awardWorkshop ["p1", "p2"] failP1 (by decide)).2.2.1
     "p2" (by decide) (fun s => by cases s <;> rfl),
   (bulk_issue_independence awardWorkshop ["p1", "p2"] failP1 (by decide)).2.2.2.mpr
     ⟨"p1", by decide, by decide⟩⟩

/-! ## C10: issued award records share timestamp and workshop title -/

/-- The organization's display name used in the certificate text
(template interpolation of `workshop.organization`). -/
def orgName : Organization → String
  | Organization.CES => "CES"
  | Organization.TCC => "TCC"
  | Organization.ICSO => "ICSO"
  | Organization.GENERAL => "GENERAL"

/-- Stored `badges` row as inserted by `issueBadge`. -/
structure BadgeRecord where
  user_id : String
  title : String
  organization : Organization
  workshop_title : String
  issued_at : Nat
  image_url : Option String
deriving DecidableEq, Repr

/-- Stored `certificates` row as inserted by `issueCertificate`. -/
structure CertificateRecord where
  user_id : String
  title : String
  organization : Organization
  workshop_title : String
  content : String
  issued_at : Nat
  file_url : Option String
deriving DecidableEq, Repr

/-- Shallow embedding of `handleIssueAwards`: the badge and certificate
rows inserted for one participant, both built from the one `issuedAt`
taken before the inserts and from the workshop's current title. -/
def handleIssueAwards (participant : Participant) (w : Workshop) (issuedAt : Nat) :
    BadgeRecord × CertificateRecord :=
  ({ user_id := participant.id
     title := w.title ++ " Graduate"
     organization := w.organization
     workshop_title := w.title
     issued_at := issuedAt
     image_url := w.badgeUrl },
   { user_id := participant.id
     title := "Certificate of Completion - " ++ w.title
     organization := w.organization
     workshop_title := w.title
     content := "This certifies that " ++ participant.name ++
       " has successfully completed the workshop " ++ w.title ++
       " hosted by " ++ orgName w.organization ++ "."
     issued_at := issuedAt
     file_url := w.certificateUrl })

/-- The award records inserted by `handleBulkIssueAwards`: one badge and
certificate pair per selected id found among the participants, all built
from the single `issuedAt` computed before the fan-out. -/
def bulkIssueRecords (w : Workshop) (ids : List String) (issuedAt : Nat) :
    List (BadgeRecord × CertificateRecord) :=
  ids.filterMap (fun pId =>
    match w.participants.find? (fun p => p.id == pId) with
    | none => none
    | some participant => some (handleIssueAwards participant w issuedAt))

/-- Shallow embedding of `storageService.revokeAwards`: delete every
badge row and every certificate row matching `(user_id, workshop_title)`. -/
def revokeAwards (badges : List BadgeRecord) (certs : List CertificateRecord)
    (userId workshopTitle : String) : List BadgeRecord × List CertificateRecord :=
  (badges.filter (fun b => !(b.user_id == userId && b.workshop_title == workshopTitle)),
   certs.filter (fun c => !(c.user_id == userId && c.workshop_title == workshopTitle)))

/-- After a revocation no badge or certificate row with the revoked
`(user, workshop-title)` key remains. -/
lemma revokeAwards_clears (badges : List BadgeRecord) (certs : List CertificateRecord)
    (uid title : String) :
    (∀ b ∈ (revokeAwards badges certs uid title).1,
      ¬(b.user_id = uid ∧ b.workshop_title = title)) ∧
    (∀ c ∈ (revokeAwards badges certs uid title).2,
      ¬(c.user_id = uid ∧ c.workshop_title = title)) := by
  constructor <;>
    · intro x hx hkey
      have hp := (List.mem_filter.mp hx).2
      rw [hkey.1, hkey.2] at hp
      simp at hp

/-- C10: a single issuance builds its badge and certificate with the
same timestamp and the workshop's title in both `workshop_title` fields,
so `revokeAwards` keyed on `(participant id, workshop title)` deletes
both together; in the bulk workflow every issued pair carries the one
shared timestamp and the same title. -/
theorem award_records_consistent (participant : Participant) (w : Workshop)
    (issuedAt : Nat) (badges : List BadgeRecord) (certs : List CertificateRecord)
    (ids : List String) :
    (handleIssueAwards participant w issuedAt).1.issued_at =
      (handleIssueAwards participant w issuedAt).2.issued_at ∧
    (handleIssueAwards participant w issuedAt).1.workshop_title = w.title ∧
    (handleIssueAwards participant w issuedAt).2.workshop_title = w.title ∧
    (handleIssueAwards participant w issuedAt).1.user_id = participant.id ∧
    (handleIssueAwards participant w issuedAt).2.user_id = participant.id ∧
    (handleIssueAwards participant w issuedAt).1 ∉
      (revokeAwards (badges ++ [(handleIssueAwards participant w issuedAt).1])
        (certs ++ [(handleIssueAwards participant w issuedAt).2])
        participant.id w.title).1 ∧
    (handleIssueAwards participant w issuedAt).2 ∉
      (revokeAwards (badges ++ [(handleIssueAwards participant w issuedAt).1])
        (certs ++ [(handleIssueAwards participant w issuedAt).2])
        participant.id w.title).2 ∧
    (∀ b ∈ (revokeAwards (badges ++ [(handleIssueAwards participant w issuedAt).1])
        (certs ++ [(handleIssueAwards participant w issuedAt).2])
        participant.id w.title).1,
      ¬(b.user_id = participant.id ∧ b.workshop_title = w.title)) ∧
    (∀ c ∈ (revokeAwards (badges ++ [(handleIssueAwards participant w issuedAt).1])
        (certs ++ [(handleIssueAwards participant w issuedAt).2])
        participant.id w.title).2,
      ¬(c.user_id = participant.id ∧ c.workshop_title = w.title)) ∧
    (∀ e ∈ bulkIssueRecords w ids issuedAt,
      e.1.issued_at = issuedAt ∧ e.2.issued_at = issuedAt ∧
      e.1.workshop_title = w.title ∧ e.2.workshop_title = w.title) := by
  have hclears := revokeAwards_clears
    (badges ++ [(handleIssueAwards participant w issuedAt).1])
    (certs ++ [(handleIssueAwards participant w issuedAt).2])
    participant.id w.title
  refine ⟨rfl, rfl, rfl, rfl, rfl, ?_, ?_, hclears.1, hclears.2, ?_⟩
  · intro hmem
    exact hclears.1 _ hmem ⟨rfl, rfl⟩
  · intro hmem
    exact hclears.2 _ hmem ⟨rfl, rfl⟩
  · intro e he
    simp only [bulkIssueRecords, List.mem_filterMap] at he
    obtain ⟨pid, _, hmatch⟩ := he
    cases hf : w.participants.find? (fun p => p.id == pid) with
    | none => rw [hf] at hmatch; cases hmatch
    | some p =>
        rw [hf] at hmatch
        injection hmatch with h
        subst h
        exact ⟨rfl, rfl, rfl, rfl⟩

/-- Witness for C10: concrete issuance to Pia for the soldering workshop
at timestamp 777, then revocation, evaluated on the resulting rows. -/
theorem award_records_consistent_witness :
    (handleIssueAwards { id := "p1", name := "Pia", email := "p1@x", avatarUrl := none }
        awardWorkshop 777).1.issued_at =
      (handleIssueAwards { id := "p1", name := "Pia", email := "p1@x", avatarUrl := none }
        awardWorkshop 777).2.issued_at ∧
    (handleIssueAwards { id := "p1", name := "Pia", email := "p1@x", avatarUrl := none }
        awardWorkshop 777).1 ∉
      (revokeAwards
        ([] ++ [(handleIssueAwards
            { id := "p1", name := "Pia", email := "p1@x", avatarUrl := none }
            awardWorkshop 777).1])
        ([] ++ [(handleIssueAwards
            { id := "p1", name := "Pia", email := "p1@x", avatarUrl := none }
            awardWorkshop 777).2])
        "p1" awardWorkshop.title).1 :=
  ⟨(award_records_consistent
      { id := "p1", name := "Pia", email := "p1@x", avatarUrl := none }
      awardWorkshop 777 [] [] []).1,
   (award_records_consistent
      { id := "p1", name := "Pia", email := "p1@x", avatarUrl := none }
      awardWorkshop 777 [] [] []).2.2.2.2.2.1⟩

/-! ## C9: attendance trend sampling (`AttendanceTrendChart`) -/

/-- Ascending-date comparison used by the chart's sort
(`(a, b) => a.date - b.date`). -/
def dateLE (a b : Workshop) : Prop := a.date ≤ b.date

instance : DecidableRel dateLE := fun a b => Nat.decLe a.date b.date

instance : IsTotal Workshop dateLE := ⟨fun a b => Nat.le_total a.date b.date⟩

instance : IsTrans Workshop dateLE := ⟨fun _ _ _ h h2 => Nat.le_trans h h2⟩

/-- `sorted.slice(-8)`: the chronologically last eight workshops of the
date-ascending stable sort (the whole list when fewer than eight). -/
def recentWorkshops (ws : List Workshop) : List Workshop :=
  let sorted := List.insertionSort dateLE ws
  sorted.drop (sorted.length - 8)

/-- One plotted point of the attendance chart. -/
structure ChartPoint where
  x : ℚ
  y : ℚ
  title : String
  count : Nat
  org : Organization
deriving DecidableEq, Repr

/-- The chart geometry computed by `AttendanceTrendChart`. -/
structure ChartData where
  points : List ChartPoint
  maxAttendance : Nat
  width : ℚ
  height : ℚ
  padding : ℚ
deriving DecidableEq, Repr

/-- `Math.max(...recent.map(w => w.participants.length), 5)`: the largest
participant count of the sample, floored at 5. -/
def chartMaxAttendance (recent : List Workshop) : Nat :=
  (recent.map (fun w => w.participants.length)).foldr max 5

/-- One point of the chart: `x` spreads index `i` over the width inside
the padding, `y` scales the participant count against `maxAttendance`
(the chart constants are width 600, height 200, padding 40). -/
def chartPoint (n : Nat) (maxAttendance : Nat) (iw : Nat × Workshop) : ChartPoint :=
  { x := 40 + ((iw.1 : ℚ) * (600 - 2 * 40)) / ((n : ℚ) - 1)
    y := 200 - 40 -
      ((iw.2.participants.length : ℚ) / (maxAttendance : ℚ)) * (200 - 2 * 40)
    title := iw.2.title
    count := iw.2.participants.length
    org := iw.2.organization }

/-- Shallow embedding of the `chartData` memo of `AttendanceTrendChart`:
sort by date ascending, take the last 8, return no chart (`null`) when
fewer than 2 remain, otherwise plot each sampled workshop. -/
def chartData (workshops : List Workshop) : Option ChartData :=
  let recent := recentWorkshops workshops
  if recent.length < 2 then none
  else
    some { points := recent.enum.map (chartPoint recent.length (chartMaxAttendance recent))
           maxAttendance := chartMaxAttendance recent
           width := 600, height := 200, padding := 40 }

/-- The base of a `foldr max` bounds the fold from below. -/
lemma foldr_max_base (l : List Nat) (b : Nat) : b ≤ l.foldr max b := by
  induction l with
  | nil => exact Nat.le_refl b
  | cons x t ih => exact Nat.le_trans ih (Nat.le_max_right x _)

/-- Every member of the list bounds the `foldr max` from below. -/
lemma mem_le_foldr_max {l : List Nat} {x : Nat} (h : x ∈ l) (b : Nat) :
    x ≤ l.foldr max b := by
  induction l with
  | nil => cases h
  | cons y t ih =>
      rcases List.mem_cons.mp h with rfl | h
      · exact Nat.le_max_left x _
      · exact Nat.le_trans (ih h) (Nat.le_max_right y _)

/-- Sampling keeps `min (length, 8)` workshops. -/
lemma length_recentWorkshops (ws : List Workshop) :
    (recentWorkshops ws).length = min ws.length 8 := by
  have hperm := (List.perm_insertionSort dateLE ws).length_eq
  show ((List.insertionSort dateLE ws).drop
    ((List.insertionSort dateLE ws).length - 8)).length = min ws.length 8
  rw [List.length_drop, hperm]
  omega

/-- Mapping a function of the value over `enum` ignores the indices. -/
lemma enum_map_val {α β : Type} (l : List α) (f : α → β) :
    l.enum.map (fun iw => f iw.2) = l.map f := by
  have h1 : l.enum.map (fun iw => f iw.2) = (l.enum.map Prod.snd).map f := by
    rw [List.map_map]; rfl
  rw [h1, List.enum_map_snd]

/-- Horizontal bounds of a plotted point: with at least two samples and
an index inside the sample, `x` stays within the padded width. -/
lemma chartPoint_x_bounds (n m i : Nat) (w : Workshop)
    (hn : 2 ≤ n) (hi : i < n) :
    40 ≤ (chartPoint n m (i, w)).x ∧ (chartPoint n m (i, w)).x ≤ 560 := by
  have h2 : (2 : ℚ) ≤ (n : ℚ) := by exact_mod_cast hn
  have hq : (0 : ℚ) < (n : ℚ) - 1 := by linarith
  have hi1 : (i : ℚ) + 1 ≤ (n : ℚ) := by exact_mod_cast hi
  have hiq : (i : ℚ) ≤ (n : ℚ) - 1 := by linarith
  have hnum : (0 : ℚ) ≤ (i : ℚ) * (600 - 2 * 40) := by positivity
  constructor
  · show (40 : ℚ) ≤ 40 + ((i : ℚ) * (600 - 2 * 40)) / ((n : ℚ) - 1)
    have := div_nonneg hnum (le_of_lt hq)
    linarith
  · show 40 + ((i : ℚ) * (600 - 2 * 40)) / ((n : ℚ) - 1) ≤ 560
    have hle : ((i : ℚ) * (600 - 2 * 40)) / ((n : ℚ) - 1) ≤ 520 := by
      rw [div_le_iff₀ hq]
      nlinarith
    linarith

/-- Vertical bounds of a plotted point: with the count below the scaled
maximum (which is at least the floor 5), `y` stays within the padded
height. -/
lemma chartPoint_y_bounds (n m i : Nat) (w : Workshop)
    (hm5 : 5 ≤ m) (hcm : w.participants.length ≤ m) :
    40 ≤ (chartPoint n m (i, w)).y ∧ (chartPoint n m (i, w)).y ≤ 160 := by
  have hm : (0 : ℚ) < (m : ℚ) := by
    have : (5 : ℚ) ≤ (m : ℚ) := by exact_mod_cast hm5
    linarith
  have ht0 : (0 : ℚ) ≤ (w.participants.length : ℚ) / (m : ℚ) :=
    div_nonneg (Nat.cast_nonneg _) (le_of_lt hm)
  have ht1 : (w.participants.length : ℚ) / (m : ℚ) ≤ 1 := by
    rw [div_le_one hm]
    exact_mod_cast hcm
  have hmul0 : (0 : ℚ) ≤ ((w.participants.length : ℚ) / (m : ℚ)) * (200 - 2 * 40) := by
    nlinarith
  have hmul1 : ((w.participants.length : ℚ) / (m : ℚ)) * (200 - 2 * 40) ≤ 120 := by
    nlinarith
  constructor
  · show (40 : ℚ) ≤ 200 - 40 -
      ((w.participants.length : ℚ) / (m : ℚ)) * (200 - 2 * 40)
    linarith
  · show (200 : ℚ) - 40 -
      ((w.participants.length : ℚ) / (m : ℚ)) * (200 - 2 * 40) ≤ 160
    linarith

/-- C9: the chart yields the explicit empty state exactly when fewer
than 2 workshops exist; otherwise it samples the chronologically last 8
workshops of the date-ascending order (every earlier workshop dates no
later than every sampled one), scales the vertical axis by the maximum
observed participant count floored at 5, and places every point inside
the bounded region `[40, 560] × [40, 160]` of the 600 × 200 canvas. -/
theorem attendance_trend_chart (ws : List Workshop) :
    (chartData ws = none ↔ ws.length < 2) ∧
    (∀ c, chartData ws = some c →
      c.points.length = min ws.length 8 ∧
      c.maxAttendance = chartMaxAttendance (recentWorkshops ws) ∧
      5 ≤ c.maxAttendance ∧
      c.points.map (fun p => p.count) =
        (recentWorkshops ws).map (fun w => w.participants.length) ∧
      (∀ p ∈ c.points, p.count ≤ c.maxAttendance ∧
        40 ≤ p.x ∧ p.x ≤ 560 ∧ 40 ≤ p.y ∧ p.y ≤ 160)) ∧
    List.Sorted dateLE (recentWorkshops ws) ∧
    (List.insertionSort dateLE ws).Perm ws ∧
    (List.insertionSort dateLE ws).take ((List.insertionSort dateLE ws).length - 8) ++
      recentWorkshops ws = List.insertionSort dateLE ws ∧
    (∀ a ∈ (List.insertionSort dateLE ws).take ((List.insertionSort dateLE ws).length - 8),
      ∀ b ∈ recentWorkshops ws, a.date ≤ b.date) := by
  have hlen := length_recentWorkshops ws
  refine ⟨?_, ?_, ?_, List.perm_insertionSort dateLE ws, List.take_append_drop _ _, ?_⟩
  · by_cases hlt : (recentWorkshops ws).length < 2
    · simp only [chartData, if_pos hlt]
      constructor
      · intro _
        omega
      · intro _
        trivial
    · simp only [chartData, if_neg hlt]
      constructor
      · intro h
        cases h
      · intro h
        omega
  · intro c hc
    by_cases hlt : (recentWorkshops ws).length < 2
    · simp only [chartData, if_pos hlt] at hc
      cases hc
    · simp only [chartData, if_neg hlt] at hc
      injection hc with hc
      subst hc
      have hn2 : 2 ≤ (recentWorkshops ws).length := by omega
      have hm5 : 5 ≤ chartMaxAttendance (recentWorkshops ws) :=
        foldr_max_base _ 5
      refine ⟨?_, rfl, hm5, ?_, ?_⟩
      · simp [List.enum_length, hlen]
      · show ((recentWorkshops ws).enum.map
            (chartPoint (recentWorkshops ws).length
              (chartMaxAttendance (recentWorkshops ws)))).map (fun p => p.count) =
          (recentWorkshops ws).map (fun w => w.participants.length)
        rw [List.map_map]
        exact enum_map_val (recentWorkshops ws) (fun w => w.participants.length)
      · intro p hp
        simp only [List.mem_map] at hp
        obtain ⟨iw, hiw, rfl⟩ := hp
        obtain ⟨i, w⟩ := iw
        obtain ⟨hi, hw⟩ := List.mem_enum hiw
        have hwmem : w ∈ recentWorkshops ws := by
          rw [hw]
          exact List.getElem_mem hi
        have hcm : w.participants.length ≤ chartMaxAttendance (recentWorkshops ws) :=
          mem_le_foldr_max (List.mem_map_of_mem (fun w => w.participants.length) hwmem) 5
        have hx := chartPoint_x_bounds (recentWorkshops ws).length
          (chartMaxAttendance (recentWorkshops ws)) i w hn2 hi
        have hy := chartPoint_y_bounds (recentWorkshops ws).length
          (chartMaxAttendance (recentWorkshops ws)) i w hm5 hcm
        exact ⟨hcm, hx.1, hx.2, hy.1, hy.2⟩
  · exact List.Pairwise.sublist (List.drop_sublist _ _)
      (List.sorted_insertionSort dateLE ws)
  · intro a ha b hb
    have hs : List.Pairwise dateLE
        ((List.insertionSort dateLE ws).take ((List.insertionSort dateLE ws).length - 8) ++
          recentWorkshops ws) := by
      show List.Pairwise dateLE
        ((List.insertionSort dateLE ws).take ((List.insertionSort dateLE ws).length - 8) ++
          (List.insertionSort dateLE ws).drop ((List.insertionSort dateLE ws).length - 8))
      rw [List.take_append_drop]
      exact List.sorted_insertionSort dateLE ws
    exact (List.pairwise_append.mp hs).2.2 a ha b hb

/-- Witness for C9: one workshop yields no chart; the two sample
workshops yield a chart of two points, all inside the bounded region. -/
theorem attendance_trend_chart_witness :
    chartData [sampleWorkshopA] = none ∧
    (∃ c, chartData sampleWorkshops = some c ∧ c.points.length = 2 ∧
      ∀ p ∈ c.points, 40 ≤ p.x ∧ p.x ≤ 560 ∧ 40 ≤ p.y ∧ p.y ≤ 160) := by
  refine ⟨(attendance_trend_chart [sampleWorkshopA]).1.mpr (by decide), ?_⟩
  cases hc : chartData sampleWorkshops with
  | none =>
      have hfew := (attendance_trend_chart sampleWorkshops).1.mp hc
      exact absurd hfew (by decide)
  | some c =>
      have h := (attendance_trend_chart sampleWorkshops).2.1 c hc
      refine ⟨c, rfl, by rw [h.1]; decide, ?_⟩
      intro p hp
      exact ⟨(h.2.2.2.2 p hp).2.1, (h.2.2.2.2 p hp).2.2.1,
        (h.2.2.2.2 p hp).2.2.2.1, (h.2.2.2.2 p hp).2.2.2.2⟩
